import Mathlib

/-!
Shallow embedding of the remote-analysis client in `src/src/app.py`
(class `MCPImageAnalyzer` and its four analysis operations), together with a
model of the parts of Python's standard library the client calls:
`str.rstrip('/')` and `json.loads`.

External effects are made explicit: the outcome of the gradio `Client(url)`
handshake and of each `client.predict(...)` call is passed to the embedded
operation as a parameter, and each operation reports how many remote
`predict` calls it issued (0 or 1), so that "performs no remote request"
is a statement about the embedding.
-/

/-- A JSON-compatible Python value: the values `json.loads` can produce and
the values the remote capability can return.  Integers only: the repository
exchanges image metadata (widths, heights, labels); fractional and exponent
numerals of JSON, which Python would decode to floats, are outside the
modelled subset and the parser below rejects them. -/
inductive Value where
  | null : Value
  | bool (b : Bool) : Value
  | num (n : Int) : Value
  | str (s : String) : Value
  | arr (xs : List Value) : Value
  | obj (kvs : List (String × Value)) : Value

/-- True exactly on the `str` constructor: the embedding of Python's
`isinstance(result, str)`. -/
def Value.isStr : Value → Bool
  | .str _ => true
  | _ => false

/-- True exactly on the `obj` constructor (a JSON mapping / Python dict). -/
def Value.isObj : Value → Bool
  | .obj _ => true
  | _ => false

/-- Whitespace skipping of Python's json decoder: space, tab, newline,
carriage return. -/
def skipWs : List Char → List Char
  | [] => []
  | c :: cs =>
    if c = ' ' ∨ c = '\t' ∨ c = '\n' ∨ c = '\r' then skipWs cs else c :: cs

/-- Numeric value of a decimal digit character. -/
def digitVal (c : Char) : Nat := c.toNat - 48

/-- Split a leading run of decimal digits off a character list. -/
def takeDigits : List Char → List Char × List Char
  | [] => ([], [])
  | c :: cs =>
    if c.isDigit then
      let (ds, rest) := takeDigits cs
      (c :: ds, rest)
    else ([], c :: cs)

/-- Decimal digits to a natural number, most significant first. -/
def digitsToNat (ds : List Char) : Nat :=
  ds.foldl (fun acc c => acc * 10 + digitVal c) 0

/-- Hexadecimal digit value, `none` if the character is not a hex digit. -/
def hexVal (c : Char) : Option Nat :=
  if '0' ≤ c ∧ c ≤ '9' then some (c.toNat - 48)
  else if 'a' ≤ c ∧ c ≤ 'f' then some (c.toNat - 87)
  else if 'A' ≤ c ∧ c ≤ 'F' then some (c.toNat - 55)
  else none

/-- Body of a JSON string literal, after the opening quote: returns the
decoded characters and the remaining input after the closing quote.
Escapes are those of Python's json decoder.  Each unit of fuel spent
consumes at least one input character, so `length + 1` fuel always
suffices; callers pass exactly that. -/
def parseStringBody : Nat → List Char → Except String (List Char × List Char)
  | 0, _ => .error "Unterminated string"
  | _, [] => .error "Unterminated string"
  | fuel + 1, c :: cs =>
    if c = '"' then .ok ([], cs)
    else if c = '\\' then
      match cs with
      | [] => .error "Unterminated string"
      | e :: cs' =>
        if e = '"' then (parseStringBody fuel cs').map (fun p => ( '"' :: p.1, p.2))
        else if e = '\\' then (parseStringBody fuel cs').map (fun p => ( '\\' :: p.1, p.2))
        else if e = '/' then (parseStringBody fuel cs').map (fun p => ( '/' :: p.1, p.2))
        else if e = 'b' then (parseStringBody fuel cs').map (fun p => ( '\x08' :: p.1, p.2))
        else if e = 'f' then (parseStringBody fuel cs').map (fun p => ( '\x0c' :: p.1, p.2))
        else if e = 'n' then (parseStringBody fuel cs').map (fun p => ( '\n' :: p.1, p.2))
        else if e = 'r' then (parseStringBody fuel cs').map (fun p => ( '\r' :: p.1, p.2))
        else if e = 't' then (parseStringBody fuel cs').map (fun p => ( '\t' :: p.1, p.2))
        else if e = 'u' then
          match cs' with
          | h1 :: h2 :: h3 :: h4 :: cs'' =>
            match hexVal h1, hexVal h2, hexVal h3, hexVal h4 with
            | some a, some b, some c3, some d =>
              let n := ((a * 16 + b) * 16 + c3) * 16 + d
              if n < 1114112 then
                (parseStringBody fuel cs'').map (fun p => (Char.ofNat n :: p.1, p.2))
              else .error "Invalid \\uXXXX escape"
            | _, _, _, _ => .error "Invalid \\uXXXX escape"
          | _ => .error "Invalid \\uXXXX escape"
        else .error "Invalid \\escape"
    else (parseStringBody fuel cs).map (fun p => (c :: p.1, p.2))

/-- A JSON numeral, following Python's json number grammar for the integer
part (`0` or a nonzero-led digit run, optional leading minus): a leading
zero ends the numeral after the single `0`, exactly as Python's tokenizer
does.  A following `.`, `e` or `E` would start a float, which is outside
the modelled subset, so it is rejected rather than misread. -/
def parseNumber (cs : List Char) : Except String (Value × List Char) :=
  let core : List Char → Except String (Nat × List Char) := fun cs0 =>
    match takeDigits cs0 with
    | ([], _) => .error "Expecting value"
    | (d :: ds, rest) =>
      if d = '0' ∧ ds ≠ [] then .ok (0, ds ++ rest)
      else
        match rest with
        | c :: _ =>
          if c = '.' ∨ c = 'e' ∨ c = 'E' then
            .error "float numerals outside modelled subset"
          else .ok (digitsToNat (d :: ds), rest)
        | [] => .ok (digitsToNat (d :: ds), rest)
  match cs with
  | '-' :: rest =>
    (core rest).map (fun p => (Value.num (-(Int.ofNat p.1)), p.2))
  | _ =>
    (core cs).map (fun p => (Value.num (Int.ofNat p.1), p.2))

/-- Insert into an association list with Python dict semantics: a repeated
key overwrites the stored value in place, keeping the key's first position. -/
def insertKey (kvs : List (String × Value)) (k : String) (v : Value) :
    List (String × Value) :=
  match kvs with
  | [] => [(k, v)]
  | (k', v') :: rest =>
    if k' = k then (k, v) :: rest else (k', v') :: insertKey rest k v

/-- Match a literal word at the head of the input. -/
def stripWord : List Char → List Char → Option (List Char)
  | [], cs => some cs
  | _, [] => none
  | w :: ws, c :: cs => if w = c then stripWord ws cs else none

mutual

/-- One JSON value (object, array, string, number, `true`, `false`, `null`)
with leading whitespace, returning the rest of the input.  The fuel bounds
the container-nesting depth; every unit of fuel spent consumes at least one
input character, so `length + 1` fuel always suffices. -/
def parseValue : Nat → List Char → Except String (Value × List Char)
  | 0, _ => .error "Nesting depth limit"
  | fuel + 1, cs =>
    match skipWs cs with
    | [] => .error "Expecting value"
    | c :: rest =>
      if c = '\x7b' then
        match skipWs rest with
        | '\x7d' :: rest' => .ok (Value.obj [], rest')
        | rest' => parseMembers fuel rest' []
      else if c = '[' then
        match skipWs rest with
        | ']' :: rest' => .ok (Value.arr [], rest')
        | rest' => parseElems fuel rest' []
      else if c = '"' then
        (parseStringBody (rest.length + 1) rest).map (fun p => (Value.str (String.mk p.1), p.2))
      else if c = 't' then
        match stripWord [ 'r', 'u', 'e'] rest with
        | some rest' => .ok (Value.bool true, rest')
        | none => .error "Expecting value"
      else if c = 'f' then
        match stripWord [ 'a', 'l', 's', 'e'] rest with
        | some rest' => .ok (Value.bool false, rest')
        | none => .error "Expecting value"
      else if c = 'n' then
        match stripWord [ 'u', 'l', 'l'] rest with
        | some rest' => .ok (Value.null, rest')
        | none => .error "Expecting value"
      else if c = '-' ∨ c.isDigit then parseNumber (c :: rest)
      else .error "Expecting value"

/-- Array elements after `[` (or after a separating comma), accumulating in
order. -/
def parseElems : Nat → List Char → List Value → Except String (Value × List Char)
  | 0, _, _ => .error "Nesting depth limit"
  | fuel + 1, cs, acc =>
    match parseValue fuel cs with
    | .error e => .error e
    | .ok (v, rest) =>
      match skipWs rest with
      | ',' :: rest' => parseElems fuel rest' (acc ++ [v])
      | ']' :: rest' => .ok (Value.arr (acc ++ [v]), rest')
      | _ => .error "Expecting comma delimiter"

/-- Object members after an opening brace (or after a separating comma),
accumulating with dict-overwrite semantics. -/
def parseMembers : Nat → List Char → List (String × Value) →
    Except String (Value × List Char)
  | 0, _, _ => .error "Nesting depth limit"
  | fuel + 1, cs, acc =>
    match skipWs cs with
    | '"' :: rest =>
      match parseStringBody (rest.length + 1) rest with
      | .error e => .error e
      | .ok (ks, rest1) =>
        match skipWs rest1 with
        | ':' :: rest2 =>
          match parseValue fuel rest2 with
          | .error e => .error e
          | .ok (v, rest3) =>
            let acc' := insertKey acc (String.mk ks) v
            match skipWs rest3 with
            | ',' :: rest4 => parseMembers fuel rest4 acc'
            | '\x7d' :: rest4 => .ok (Value.obj acc', rest4)
            | _ => .error "Expecting comma delimiter"
        | _ => .error "Expecting colon delimiter"
    | _ => .error "Expecting property name enclosed in double quotes"

end

/-- Model of Python's `json.loads`: decode one JSON document, requiring
only whitespace after it (else the `Extra data` failure), and fail with a
reason string on malformed input, as `json.JSONDecodeError`'s message does. -/
def json_loads (s : String) : Except String Value :=
  match parseValue (s.length + 1) s.data with
  | .error e => .error e
  | .ok (v, rest) =>
    match skipWs rest with
    | [] => .ok v
    | _ => .error "Extra data"

example : json_loads "\x7b\"width\":10,\"height\":20\x7d" =
    .ok (Value.obj [("width", Value.num 10), ("height", Value.num 20)]) := rfl

example : json_loads "not json" = .error "Expecting value" := rfl

example : json_loads "[1, 2, -3]" =
    .ok (Value.arr [Value.num 1, Value.num 2, Value.num (-3)]) := rfl

example : json_loads "5" = .ok (Value.num 5) := rfl

example : json_loads "true" = .ok (Value.bool true) := rfl

example : json_loads "\"hi\"" = .ok (Value.str "hi") := rfl

example : json_loads "01" = .error "Extra data" := rfl

/-- Python repr of a JSON-compatible value, used by `str()` inside the
client's f-strings when the interpolated value is not itself a string. -/
def pyRepr : Value → String
  | .null => "None"
  | .bool true => "True"
  | .bool false => "False"
  | .num n => toString n
  | .str s => "\x27" ++ s ++ "\x27"
  | .arr xs =>
    "[" ++ String.intercalate ", " (xs.attach.map (fun x => pyRepr x.1)) ++ "]"
  | .obj kvs =>
    "\x7b" ++
      String.intercalate ", "
        (kvs.attach.map (fun kv => "\x27" ++ kv.1.1 ++ "\x27: " ++ pyRepr kv.1.2)) ++
      "\x7d"
termination_by v => sizeOf v
decreasing_by
· have h := List.sizeOf_lt_of_mem x.2
  simp only [Value.arr.sizeOf_spec]
  omega
· have h := List.sizeOf_lt_of_mem kv.2
  rcases kv with ⟨⟨k, v⟩, hmem⟩
  simp only [Prod.mk.sizeOf_spec] at h
  simp only [Value.obj.sizeOf_spec]
  omega

/-- Python's `str()` as applied inside an f-string: a string interpolates
as itself, any other value through its repr. -/
def pyStr (v : Value) : String :=
  match v with
  | .str s => s
  | v => pyRepr v

/-- Strip every trailing occurrence of a character: Python's
`s.rstrip(c)` for a single-character strip set. -/
def rstripChar (s : String) (c : Char) : String :=
  String.mk (List.dropWhile (fun x => x = c) s.data.reverse).reverse

/-- The connection handle the gradio `Client(url)` constructor yields on a
successful handshake; the client stores it in `self.client`. -/
structure ClientHandle where
  url : String
deriving DecidableEq

/-- An in-memory image (PIL `Image.Image`); the client only passes it
through to the transport, so a token stands for it. -/
structure ImageInput where
  id : Nat
deriving DecidableEq

/-- The mutable state of an `MCPImageAnalyzer` instance: the normalized
endpoint URL, the optional connection handle, and the status string. -/
structure MCPImageAnalyzer where
  space_url : String
  client : Option ClientHandle
  connection_status : String
deriving DecidableEq

/-- Outcome of evaluating `Client(self.space_url)` during `connect`:
either the constructor returns a handle, or it raises with message `e`. -/
inductive ConnectOutcome where
  | success : ConnectOutcome
  | failure (e : String) : ConnectOutcome

/-- Outcome of one `self.client.predict(...)` call: either the remote
capability returns a value (a string or an already-structured value), or
the call raises with message `e` (transport failure, rejection, ...). -/
inductive PredictOutcome where
  | ok (v : Value) : PredictOutcome
  | exn (e : String) : PredictOutcome

/-- Default endpoint of the constructor's `space_url` parameter. -/
def defaultSpaceUrl : String := "https://chris4k-mcp-images.hf.space"

/-- The constructor `MCPImageAnalyzer.__init__`: normalizes the endpoint
with `rstrip('/')`, leaves the handle `None`, status `"Disconnected"`. -/
def MCPImageAnalyzer.init (space_url : String) : MCPImageAnalyzer :=
  { space_url := rstripChar space_url '/'
    client := none
    connection_status := "Disconnected" }

/-- The method `connect`: evaluates `Client(self.space_url)`; on success
stores the handle and the Connected status and returns a success pair; if
the constructor raises, the handle assignment never executes (the previous
handle, if any, stays in place), the status becomes the failure status, and
an error pair is returned.  The `except` clause makes the method total:
no exception escapes to the caller. -/
def MCPImageAnalyzer.connect (a : MCPImageAnalyzer) (outcome : ConnectOutcome) :
    MCPImageAnalyzer × String × String :=
  match outcome with
  | .success =>
    ({ a with client := some { url := a.space_url }
              connection_status := "Connected ✅" },
     "✅ Successfully connected to " ++ a.space_url, "success")
  | .failure e =>
    ({ a with connection_status := "Connection Failed ❌" },
     "❌ Failed to connect to " ++ a.space_url ++ ": " ++ e, "error")

/-- The method `analyze_image`: guard `if not self.client` (the handle,
not the status string), then the null-image guard, then one `predict` call
whose string results go through `json.loads` and whose non-string results
pass through unchanged; any exception inside the `try` (transport or JSON
parse) becomes the `Analysis failed` error dict.  The returned triple is
(the instance state after the call, the returned value, the number of
`predict` calls issued). -/
def MCPImageAnalyzer.analyze_image (a : MCPImageAnalyzer)
    (image : Option ImageInput) (remote : PredictOutcome) :
    MCPImageAnalyzer × Value × Nat :=
  match a.client with
  | none =>
    (a, .obj [("error", .str "Not connected to MCP server. Please connect first.")], 0)
  | some _ =>
    match image with
    | none => (a, .obj [("error", .str "No image provided")], 0)
    | some _ =>
      match remote with
      | .ok result =>
        match result with
        | .str s =>
          match json_loads s with
          | .ok v => (a, v, 1)
          | .error e => (a, .obj [("error", .str ("Analysis failed: " ++ e))], 1)
        | v => (a, v, 1)
      | .exn e => (a, .obj [("error", .str ("Analysis failed: " ++ e))], 1)

/-- The method `get_orientation`: same two guards, then one `predict` call
interpolated into the `📐 Orientation:` f-string; exceptions become the
`❌ Error:` text. -/
def MCPImageAnalyzer.get_orientation (a : MCPImageAnalyzer)
    (image : Option ImageInput) (remote : PredictOutcome) :
    MCPImageAnalyzer × String × Nat :=
  match a.client with
  | none => (a, "❌ Not connected to MCP server", 0)
  | some _ =>
    match image with
    | none => (a, "❌ No image provided", 0)
    | some _ =>
      match remote with
      | .ok result => (a, "📐 Orientation: " ++ pyStr result, 1)
      | .exn e => (a, "❌ Error: " ++ e, 1)

/-- The method `analyze_colors`: same two guards, then one `predict` call
interpolated into the `🎨 Color Analysis:` f-string; exceptions become the
`❌ Error:` text. -/
def MCPImageAnalyzer.analyze_colors (a : MCPImageAnalyzer)
    (image : Option ImageInput) (remote : PredictOutcome) :
    MCPImageAnalyzer × String × Nat :=
  match a.client with
  | none => (a, "❌ Not connected to MCP server", 0)
  | some _ =>
    match image with
    | none => (a, "❌ No image provided", 0)
    | some _ =>
      match remote with
      | .ok result => (a, "🎨 Color Analysis:\n" ++ pyStr result, 1)
      | .exn e => (a, "❌ Error: " ++ e, 1)

/-- The method `extract_text_info`: the same shape as `analyze_image` with
the text-info capability's error strings. -/
def MCPImageAnalyzer.extract_text_info (a : MCPImageAnalyzer)
    (image : Option ImageInput) (remote : PredictOutcome) :
    MCPImageAnalyzer × Value × Nat :=
  match a.client with
  | none => (a, .obj [("error", .str "Not connected to MCP server")], 0)
  | some _ =>
    match image with
    | none => (a, .obj [("error", .str "No image provided")], 0)
    | some _ =>
      match remote with
      | .ok result =>
        match result with
        | .str s =>
          match json_loads s with
          | .ok v => (a, v, 1)
          | .error e => (a, .obj [("error", .str ("Text analysis failed: " ++ e))], 1)
        | v => (a, v, 1)
      | .exn e => (a, .obj [("error", .str ("Text analysis failed: " ++ e))], 1)

/-- A string `s` mentions `sub` when `sub` occurs contiguously in `s`. -/
def mentions (s sub : String) : Prop :=
  ∃ p q, s = p ++ sub ++ q

/-- Two strings with the same character list are equal. -/
theorem string_eq_of_data (s t : String) (h : s.data = t.data) : s = t := by
  cases s
  cases t
  exact congrArg String.mk h

/-- A client that has completed one successful `connect()` against the
default endpoint: the state every connected-client theorem is witnessed on. -/
def connectedClient : MCPImageAnalyzer :=
  ((MCPImageAnalyzer.init defaultSpaceUrl).connect .success).1

example : connectedClient.client = some { url := defaultSpaceUrl } := rfl

example : connectedClient.connection_status = "Connected ✅" := rfl

/-- A client whose `connect()` succeeded once and whose second `connect()`
attempt then failed: the status is the Failed status, but the handle stored
by the first success is still in place, because the failed
`self.client = Client(...)` assignment never executed. -/
def staleHandleClient : MCPImageAnalyzer :=
  ((connectedClient.connect (.failure "Connection refused")).1)

/-- C1: the claim says every analysis operation fails fast with a typed
error and no remote request whenever ConnectionState is not Connected,
including the Failed state reached when a `connect()` fails after an
earlier success.  That is false on the code: in exactly that state the
status is `Connection Failed ❌`, yet `analyze_image` still issues one
remote `predict` call and returns its payload, because the guard tests
`self.client` (the stale handle survives the failed attempt), not the
status. -/
theorem C1_counterexample :
    staleHandleClient.connection_status = "Connection Failed ❌" ∧
    staleHandleClient.connection_status ≠ "Connected ✅" ∧
    (staleHandleClient.analyze_image (some ⟨0⟩)
        (.ok (.obj [("width", .num 10)]))).2.2 = 1 ∧
    (staleHandleClient.analyze_image (some ⟨0⟩)
        (.ok (.obj [("width", .num 10)]))).2.1 = .obj [("width", .num 10)] :=
  ⟨rfl, by decide, rfl, rfl⟩

/-- C1 (amended): the fail-fast gate of the four analysis operations is
the connection handle, not the status string: whenever `self.client` is
`None` — the state in which no `connect()` has ever succeeded — every
operation issues zero remote `predict` calls and returns its typed
not-connected error; in the Failed state reached after an earlier
successful connect the stale handle remains and a remote request is still
made. -/
theorem C1_amended (a : MCPImageAnalyzer) (img : Option ImageInput)
    (remote : PredictOutcome) (h : a.client = none) :
    a.analyze_image img remote
      = (a, .obj [("error", .str "Not connected to MCP server. Please connect first.")], 0) ∧
    a.get_orientation img remote = (a, "❌ Not connected to MCP server", 0) ∧
    a.analyze_colors img remote = (a, "❌ Not connected to MCP server", 0) ∧
    a.extract_text_info img remote
      = (a, .obj [("error", .str "Not connected to MCP server")], 0) := by
  simp [MCPImageAnalyzer.analyze_image, MCPImageAnalyzer.get_orientation,
        MCPImageAnalyzer.analyze_colors, MCPImageAnalyzer.extract_text_info, h]

/-- Closed instance of `C1_amended` on a freshly constructed client. -/
theorem C1_amended_witness :
    (MCPImageAnalyzer.init defaultSpaceUrl).client = none ∧
    ((MCPImageAnalyzer.init defaultSpaceUrl).analyze_image (some ⟨0⟩) (.ok (.num 1))
      = (MCPImageAnalyzer.init defaultSpaceUrl,
         .obj [("error", .str "Not connected to MCP server. Please connect first.")], 0) ∧
     (MCPImageAnalyzer.init defaultSpaceUrl).get_orientation (some ⟨0⟩) (.ok (.num 1))
      = (MCPImageAnalyzer.init defaultSpaceUrl, "❌ Not connected to MCP server", 0) ∧
     (MCPImageAnalyzer.init defaultSpaceUrl).analyze_colors (some ⟨0⟩) (.ok (.num 1))
      = (MCPImageAnalyzer.init defaultSpaceUrl, "❌ Not connected to MCP server", 0) ∧
     (MCPImageAnalyzer.init defaultSpaceUrl).extract_text_info (some ⟨0⟩) (.ok (.num 1))
      = (MCPImageAnalyzer.init defaultSpaceUrl,
         .obj [("error", .str "Not connected to MCP server")], 0)) :=
  ⟨rfl, C1_amended (MCPImageAnalyzer.init defaultSpaceUrl) (some ⟨0⟩) (.ok (.num 1)) rfl⟩

/-- C2: on a connected client with a non-null image, a string response is
parsed as JSON and the parsed structure is what `analyze_image` and
`extract_text_info` return. -/
theorem C2_json_roundtrip (a : MCPImageAnalyzer) (c : ClientHandle)
    (i : ImageInput) (s : String) (v : Value)
    (hc : a.client = some c) (hp : json_loads s = .ok v) :
    (a.analyze_image (some i) (.ok (.str s))).2.1 = v ∧
    (a.extract_text_info (some i) (.ok (.str s))).2.1 = v := by
  simp [MCPImageAnalyzer.analyze_image, MCPImageAnalyzer.extract_text_info, hc, hp]

/-- Closed instance of `C2_json_roundtrip`: the response string
`{"width":10,"height":20}` yields the mapping with width 10 and
height 20. -/
theorem C2_json_roundtrip_witness :
    connectedClient.client = some { url := defaultSpaceUrl } ∧
    json_loads "\x7b\"width\":10,\"height\":20\x7d"
      = .ok (Value.obj [("width", Value.num 10), ("height", Value.num 20)]) ∧
    ((connectedClient.analyze_image (some ⟨0⟩)
        (.ok (.str "\x7b\"width\":10,\"height\":20\x7d"))).2.1
      = Value.obj [("width", Value.num 10), ("height", Value.num 20)] ∧
     (connectedClient.extract_text_info (some ⟨0⟩)
        (.ok (.str "\x7b\"width\":10,\"height\":20\x7d"))).2.1
      = Value.obj [("width", Value.num 10), ("height", Value.num 20)]) :=
  ⟨rfl, rfl,
   C2_json_roundtrip connectedClient { url := defaultSpaceUrl } ⟨0⟩
     "\x7b\"width\":10,\"height\":20\x7d"
     (Value.obj [("width", Value.num 10), ("height", Value.num 20)]) rfl rfl⟩

/-- C3: on a connected client with a non-null image, a string response
that fails to parse as JSON makes `analyze_image` and `extract_text_info`
return an error dict whose message carries the parse-failure reason; the
operations are total, so no exception reaches the caller. -/
theorem C3_parse_failure (a : MCPImageAnalyzer) (c : ClientHandle)
    (i : ImageInput) (s e : String)
    (hc : a.client = some c) (hp : json_loads s = .error e) :
    (a.analyze_image (some i) (.ok (.str s))).2.1
      = .obj [("error", .str ("Analysis failed: " ++ e))] ∧
    mentions ("Analysis failed: " ++ e) e ∧
    (a.extract_text_info (some i) (.ok (.str s))).2.1
      = .obj [("error", .str ("Text analysis failed: " ++ e))] ∧
    mentions ("Text analysis failed: " ++ e) e := by
  refine ⟨?_, ⟨"Analysis failed: ", "", ?_⟩, ?_, ⟨"Text analysis failed: ", "", ?_⟩⟩
  · simp [MCPImageAnalyzer.analyze_image, hc, hp]
  · simp [String.append_empty]
  · simp [MCPImageAnalyzer.extract_text_info, hc, hp]
  · simp [String.append_empty]

/-- Closed instance of `C3_parse_failure` on the malformed response
`not json`. -/
theorem C3_parse_failure_witness :
    connectedClient.client = some { url := defaultSpaceUrl } ∧
    json_loads "not json" = .error "Expecting value" ∧
    ((connectedClient.analyze_image (some ⟨0⟩) (.ok (.str "not json"))).2.1
      = .obj [("error", .str ("Analysis failed: " ++ "Expecting value"))] ∧
     mentions ("Analysis failed: " ++ "Expecting value") "Expecting value" ∧
     (connectedClient.extract_text_info (some ⟨0⟩) (.ok (.str "not json"))).2.1
      = .obj [("error", .str ("Text analysis failed: " ++ "Expecting value"))] ∧
     mentions ("Text analysis failed: " ++ "Expecting value") "Expecting value") :=
  ⟨rfl, rfl,
   C3_parse_failure connectedClient { url := defaultSpaceUrl } ⟨0⟩
     "not json" "Expecting value" rfl rfl⟩

/-- C4: the claim says `get_orientation` returns the remote scalar label
passed through verbatim as the returned text.  That is false on the code:
the returned text is the f-string `📐 Orientation: {result}`, so for the
remote label `landscape` the method returns `📐 Orientation: landscape`,
not `landscape`. -/
theorem C4_counterexample :
    (connectedClient.get_orientation (some ⟨0⟩) (.ok (.str "landscape"))).2.1
      ≠ "landscape" ∧
    (connectedClient.get_orientation (some ⟨0⟩) (.ok (.str "landscape"))).2.1
      = "📐 Orientation: landscape" :=
  ⟨by decide, rfl⟩

/-- C4 (amended): on a connected client with a non-null image,
`get_orientation` returns the scalar orientation label passed through
verbatim, embedded after the fixed prefix `📐 Orientation: ` in the
returned text. -/
theorem C4_amended (a : MCPImageAnalyzer) (c : ClientHandle) (i : ImageInput)
    (label : String) (hc : a.client = some c) :
    (a.get_orientation (some i) (.ok (.str label))).2.1
      = "📐 Orientation: " ++ label ∧
    mentions ((a.get_orientation (some i) (.ok (.str label))).2.1) label := by
  constructor
  · simp [MCPImageAnalyzer.get_orientation, hc, pyStr]
  · refine ⟨"📐 Orientation: ", "", ?_⟩
    simp [MCPImageAnalyzer.get_orientation, hc, pyStr, String.append_empty]

/-- Closed instance of `C4_amended` on the label `landscape`. -/
theorem C4_amended_witness :
    connectedClient.client = some { url := defaultSpaceUrl } ∧
    ((connectedClient.get_orientation (some ⟨0⟩) (.ok (.str "landscape"))).2.1
      = "📐 Orientation: " ++ "landscape" ∧
     mentions ((connectedClient.get_orientation (some ⟨0⟩)
        (.ok (.str "landscape"))).2.1) "landscape") :=
  ⟨rfl, C4_amended connectedClient { url := defaultSpaceUrl } ⟨0⟩ "landscape" rfl⟩

/-- C5: when the handshake fails, `connect` is total (the `except` clause
converts the exception to a returned result), sets the status to the
Failed status and never the Connected one, and returns a message carrying
the endpoint identifier together with a failure indication, tagged
`error`. -/
theorem C5_connect_failure (a : MCPImageAnalyzer) (e : String) :
    (a.connect (.failure e)).1.connection_status = "Connection Failed ❌" ∧
    (a.connect (.failure e)).1.connection_status ≠ "Connected ✅" ∧
    (a.connect (.failure e)).2.1
      = "❌ Failed to connect to " ++ a.space_url ++ ": " ++ e ∧
    mentions ((a.connect (.failure e)).2.1) a.space_url ∧
    mentions ((a.connect (.failure e)).2.1) "Failed" ∧
    (a.connect (.failure e)).2.2 = "error" := by
  refine ⟨rfl, ?_, rfl, ?_, ?_, rfl⟩
  · show ("Connection Failed ❌" : String) ≠ "Connected ✅"
    decide
  · refine ⟨"❌ Failed to connect to ", ": " ++ e, ?_⟩
    show "❌ Failed to connect to " ++ a.space_url ++ ": " ++ e
      = "❌ Failed to connect to " ++ a.space_url ++ (": " ++ e)
    apply string_eq_of_data
    simp only [String.data_append, List.append_assoc]
  · refine ⟨"❌ ", " to connect to " ++ a.space_url ++ ": " ++ e, ?_⟩
    show "❌ Failed to connect to " ++ a.space_url ++ ": " ++ e
      = "❌ " ++ "Failed" ++ (" to connect to " ++ a.space_url ++ ": " ++ e)
    apply string_eq_of_data
    simp only [String.data_append, List.append_assoc]
    rfl

/-- C6: on a connected client with a non-null image, an already-structured
(non-string) response value is returned unchanged by `analyze_image` and
`extract_text_info`: an identity pass-through with no re-encoding. -/
theorem C6_passthrough (a : MCPImageAnalyzer) (c : ClientHandle) (i : ImageInput)
    (v : Value) (hc : a.client = some c) (hv : v.isStr = false) :
    (a.analyze_image (some i) (.ok v)).2.1 = v ∧
    (a.extract_text_info (some i) (.ok v)).2.1 = v := by
  cases v <;>
    simp_all [MCPImageAnalyzer.analyze_image, MCPImageAnalyzer.extract_text_info,
              Value.isStr]

/-- Closed instance of `C6_passthrough` on a structured mapping value. -/
theorem C6_passthrough_witness :
    connectedClient.client = some { url := defaultSpaceUrl } ∧
    (Value.obj [("width", Value.num 10)]).isStr = false ∧
    ((connectedClient.analyze_image (some ⟨0⟩)
        (.ok (Value.obj [("width", Value.num 10)]))).2.1
      = Value.obj [("width", Value.num 10)] ∧
     (connectedClient.extract_text_info (some ⟨0⟩)
        (.ok (Value.obj [("width", Value.num 10)]))).2.1
      = Value.obj [("width", Value.num 10)]) :=
  ⟨rfl, rfl,
   C6_passthrough connectedClient { url := defaultSpaceUrl } ⟨0⟩
     (Value.obj [("width", Value.num 10)]) rfl rfl⟩

/-- C7: a freshly constructed client is Disconnected with no handle, and
each of the four analysis operations returns its typed error whose message
mentions not being connected, with zero remote `predict` calls and the
instance state untouched. -/
theorem C7_fresh_disconnected (u : String) (img : Option ImageInput)
    (remote : PredictOutcome) :
    (MCPImageAnalyzer.init u).connection_status = "Disconnected" ∧
    (MCPImageAnalyzer.init u).client = none ∧
    (MCPImageAnalyzer.init u).analyze_image img remote
      = (MCPImageAnalyzer.init u,
         .obj [("error", .str "Not connected to MCP server. Please connect first.")], 0) ∧
    mentions "Not connected to MCP server. Please connect first." "Not connected" ∧
    (MCPImageAnalyzer.init u).get_orientation img remote
      = (MCPImageAnalyzer.init u, "❌ Not connected to MCP server", 0) ∧
    (MCPImageAnalyzer.init u).analyze_colors img remote
      = (MCPImageAnalyzer.init u, "❌ Not connected to MCP server", 0) ∧
    mentions "❌ Not connected to MCP server" "Not connected" ∧
    (MCPImageAnalyzer.init u).extract_text_info img remote
      = (MCPImageAnalyzer.init u,
         .obj [("error", .str "Not connected to MCP server")], 0) ∧
    mentions "Not connected to MCP server" "Not connected" :=
  ⟨rfl, rfl, rfl,
   ⟨"", " to MCP server. Please connect first.", by decide⟩,
   rfl, rfl,
   ⟨"❌ ", " to MCP server", by decide⟩,
   rfl,
   ⟨"", " to MCP server", by decide⟩⟩

/-- C8: on a connected client, each of the four analysis operations called
with a null image returns its typed error whose message mentions that no
image was provided, with zero remote `predict` calls and the instance
state untouched. -/
theorem C8_no_image (a : MCPImageAnalyzer) (c : ClientHandle)
    (remote : PredictOutcome) (hc : a.client = some c) :
    a.analyze_image none remote = (a, .obj [("error", .str "No image provided")], 0) ∧
    a.get_orientation none remote = (a, "❌ No image provided", 0) ∧
    a.analyze_colors none remote = (a, "❌ No image provided", 0) ∧
    a.extract_text_info none remote = (a, .obj [("error", .str "No image provided")], 0) ∧
    mentions "No image provided" "No image" ∧
    mentions "❌ No image provided" "No image" := by
  refine ⟨?_, ?_, ?_, ?_, ⟨"", " provided", by decide⟩, ⟨"❌ ", " provided", by decide⟩⟩
  all_goals
    simp [MCPImageAnalyzer.analyze_image, MCPImageAnalyzer.get_orientation,
          MCPImageAnalyzer.analyze_colors, MCPImageAnalyzer.extract_text_info, hc]

/-- Closed instance of `C8_no_image` on the connected client. -/
theorem C8_no_image_witness :
    connectedClient.client = some { url := defaultSpaceUrl } ∧
    (connectedClient.analyze_image none (.ok (.num 1))
      = (connectedClient, .obj [("error", .str "No image provided")], 0) ∧
     connectedClient.get_orientation none (.ok (.num 1))
      = (connectedClient, "❌ No image provided", 0) ∧
     connectedClient.analyze_colors none (.ok (.num 1))
      = (connectedClient, "❌ No image provided", 0) ∧
     connectedClient.extract_text_info none (.ok (.num 1))
      = (connectedClient, .obj [("error", .str "No image provided")], 0) ∧
     mentions "No image provided" "No image" ∧
     mentions "❌ No image provided" "No image") :=
  ⟨rfl, C8_no_image connectedClient { url := defaultSpaceUrl } (.ok (.num 1)) rfl⟩

/-- C9: every analysis operation returns the instance state it was called
on, whatever the outcome (guard failure, successful response, transport
failure, or parse failure): the status, handle, and stored endpoint are
unchanged — no disconnect side-effect. -/
theorem C9_state_unchanged (a : MCPImageAnalyzer) (img : Option ImageInput)
    (remote : PredictOutcome) :
    (a.analyze_image img remote).1 = a ∧
    (a.get_orientation img remote).1 = a ∧
    (a.analyze_colors img remote).1 = a ∧
    (a.extract_text_info img remote).1 = a := by
  refine ⟨?_, ?_, ?_, ?_⟩
  · unfold MCPImageAnalyzer.analyze_image
    repeat' first | rfl | split
  · unfold MCPImageAnalyzer.get_orientation
    repeat' first | rfl | split
  · unfold MCPImageAnalyzer.analyze_colors
    repeat' first | rfl | split
  · unfold MCPImageAnalyzer.extract_text_info
    repeat' first | rfl | split

/-- C10: on a connected client with a non-null image, a string response
parsing as JSON to a non-mapping value (number, boolean, string, or array)
is returned as-is by `analyze_image` and `extract_text_info`: no shape
validation is applied, so the result can be neither a key-value mapping
nor an error dict. -/
theorem C10_nonmapping_passthrough (a : MCPImageAnalyzer) (c : ClientHandle)
    (i : ImageInput) (s : String) (v : Value) (hc : a.client = some c)
    (hp : json_loads s = .ok v) (hv : v.isObj = false) :
    (a.analyze_image (some i) (.ok (.str s))).2.1 = v ∧
    ((a.analyze_image (some i) (.ok (.str s))).2.1).isObj = false ∧
    (a.extract_text_info (some i) (.ok (.str s))).2.1 = v ∧
    ((a.extract_text_info (some i) (.ok (.str s))).2.1).isObj = false := by
  simp [MCPImageAnalyzer.analyze_image, MCPImageAnalyzer.extract_text_info, hc, hp, hv]

/-- Closed instance of `C10_nonmapping_passthrough` on the response string
`5`, which parses to the bare number 5. -/
theorem C10_nonmapping_passthrough_witness :
    connectedClient.client = some { url := defaultSpaceUrl } ∧
    json_loads "5" = .ok (Value.num 5) ∧
    (Value.num 5).isObj = false ∧
    ((connectedClient.analyze_image (some ⟨0⟩) (.ok (.str "5"))).2.1 = Value.num 5 ∧
     ((connectedClient.analyze_image (some ⟨0⟩) (.ok (.str "5"))).2.1).isObj = false ∧
     (connectedClient.extract_text_info (some ⟨0⟩) (.ok (.str "5"))).2.1 = Value.num 5 ∧
     ((connectedClient.extract_text_info (some ⟨0⟩) (.ok (.str "5"))).2.1).isObj = false) :=
  ⟨rfl, rfl, rfl,
   C10_nonmapping_passthrough connectedClient { url := defaultSpaceUrl } ⟨0⟩
     "5" (Value.num 5) rfl rfl rfl⟩
